import Mathlib

/-!
Shallow embedding of the vault-ec2auth agent (Brightspace/vault-ec2auth).

The repository carries two near-duplicate variants of the program; the
agent-capable, retrying variant (the one with `-agent`, `-aws-mount` and
`-retry-delay`, version 0.2.x per the changelog) is the final design and is
the code embedded here.  Times are modelled as `Int` (nanoseconds since an
arbitrary epoch, as in Go's `time.Time`), file contents as `Option String`
(`none` = the file does not exist), and each external effect (DNS lookup,
metadata GET, login POST, file write) is supplied by an explicit
environment value so that the control flow of the Go source becomes a pure
function of that environment.
-/

namespace VaultEc2Auth

/-- Embedding of `get_datetime_midpoint(time1, time2 time.Time) time.Time`:
`if time2.After(time1) { return time1.Add(time2.Sub(time1) / 2) } else
{ return time2.Add(time1.Sub(time2) / 2) }`.  `time2.After(time1)` is
`time1 < time2`; Go duration division is integer division, and in both
branches the dividend is nonnegative, where Lean's `Int` division agrees
with Go's truncated division. -/
def get_datetime_midpoint (time1 time2 : Int) : Int :=
  if time1 < time2 then time1 + (time2 - time1) / 2
  else time2 + (time1 - time2) / 2

/-- Embedding of `get_nonce() (bool, string)`: returns `(true, contents)`
when the nonce file exists (`os.Stat` succeeds) and has size greater than
zero, and `(false, "")` otherwise.  The ignored `ioutil.ReadFile` error is
not modelled: an existing file is assumed readable, so the read returns the
contents whose length `os.Stat` reported. -/
def get_nonce (nonceFile : Option String) : Bool × String :=
  match nonceFile with
  | some contents => if contents.length > 0 then (true, contents) else (false, "")
  | none => (false, "")

/-- The JSON request body POSTed to the login endpoint: either a
`LoginRequest{Role, Pkcs7}` or a `ReLoginRequest{Role, Pkcs7, Nonce}`. -/
inductive RequestBody where
  | loginRequest (role pkcs7 : String)
  | reLoginRequest (role pkcs7 nonce : String)
deriving DecidableEq, Repr

/-- The JSON fields `json.Marshal` emits for each request struct, in struct
order, as key/value pairs.  `LoginRequest` has no nonce field at all. -/
def RequestBody.jsonFields : RequestBody → List (String × String)
  | .loginRequest r p => [("role", r), ("pkcs7", p)]
  | .reLoginRequest r p n => [("role", r), ("pkcs7", p), ("nonce", n)]

/-- Embedding of the request-construction block of `vault_ec2_auth`:
`nonceExists, nonce := get_nonce(); if nonceExists { ReLoginRequest{...} }
else { LoginRequest{...} }`. -/
def login_request_body (role pkcs7 : String) (nonceFile : Option String) : RequestBody :=
  let nr := get_nonce nonceFile
  if nr.1 then .reLoginRequest role pkcs7 nr.2 else .loginRequest role pkcs7

/-- Embedding of the status check in `vault_ec2_auth`:
`response.StatusCode >= 300 || response.StatusCode < 200`. -/
def status_is_login_failure (statusCode : Int) : Bool :=
  decide (300 ≤ statusCode) || decide (statusCode < 200)

/-- An HTTP response the EC2 metadata endpoint hands back to
`client.Get` in `get_pkcs7`.  When `client.Get` returns an error, the
`*http.Response` it returns is nil; that case is modelled by the absence of
a `MetadataResponse` (`Option` below). -/
structure MetadataResponse where
  statusCode : Int
  body : String
deriving DecidableEq, Repr

/-- Outcome of a call to `get_pkcs7`.  `panicked` models a Go runtime
panic: the goroutine (here, the whole single-threaded process) dies. -/
inductive Pkcs7Result where
  | panicked
  | ok (body : String)
deriving DecidableEq, Repr

/-- Embedding of `get_pkcs7() ([]byte, error)`.  When `client.Get` fails
(`metadataGet = none`), `pkcs7Request` is nil and the very next statement,
`defer pkcs7Request.Body.Close()`, dereferences the nil response while
evaluating the deferred method value, so the function panics instead of
returning `err`.  When a response is received, `ioutil.ReadAll` reads the
full body and the function returns it verbatim, whatever the status code
and even when the body is empty; `err` is nil in that case, so the `ok`
branch carries no error. -/
def get_pkcs7 (metadataGet : Option MetadataResponse) : Pkcs7Result :=
  match metadataGet with
  | none => .panicked
  | some resp => .ok resp.body

/-- The decoded fields of a login response body that the program uses:
`auth.lease_duration`, `auth.client_token` and `auth.metadata.nonce`.  Go's
JSON decoder leaves a missing field at its zero value, so an absent
metadata nonce decodes to `metadataNonce = ""`. -/
structure LoginData where
  leaseDuration : Int
  clientToken : String
  metadataNonce : String
deriving DecidableEq, Repr

/-- An HTTP response to the login POST.  `decoded = none` models a body on
which `json.NewDecoder(...).Decode(&result)` fails. -/
structure HttpResponse where
  statusCode : Int
  rawBody : String
  decoded : Option LoginData
deriving DecidableEq, Repr

/-- The external effects one execution of `vault_ec2_auth` consumes: the
metadata GET outcome, the login POST outcome (`none` = `client.Post`
returned an error), and the value of `time.Now()` read after decoding. -/
structure AttemptEnv where
  metadataGet : Option MetadataResponse
  postResult : Option HttpResponse
  now : Int
deriving DecidableEq, Repr

/-- How the process ends when it does not return normally: `fatalExit` is
`log.Fatal` (exit status 1), `panicked` is a Go runtime panic. -/
inductive Termination where
  | fatalExit
  | panicked
deriving DecidableEq, Repr

/-- Result of one execution of `vault_ec2_auth`: the normal return
`(leaseEndTime, token, nonce, nil)`, the error return taken on a non-2xx
status (the only `err != nil` return in the function), or process
death inside the call (a `check(err)` fatal or the `get_pkcs7` panic). -/
inductive VaultAuthResult where
  | success (leaseEndTime : Int) (token nonce : String)
  | loginError (statusCode : Int) (body : String)
  | terminated (t : Termination)
deriving DecidableEq, Repr

/-- Embedding of `vault_ec2_auth() (time.Time, string, string, error)`.
Control flow of the source, in order: `get_pkcs7` (a connection failure
panics inside it; any error it could return would hit `check(err)`),
`get_nonce` and the request construction, `client.Post` (`check(err)` on
transport failure), the status check returning a login error for statuses
outside [200, 300), `Decode` (`check(err)` on a malformed body), then
`leaseEndTime := time.Now().Add(lease_duration seconds)`.  The first
component is the request body the attempt POSTs (`none` when the attempt
died before building it). -/
def vault_ec2_auth (role : String) (nonceFile : Option String) (env : AttemptEnv) :
    Option RequestBody × VaultAuthResult :=
  match get_pkcs7 env.metadataGet with
  | .panicked => (none, .terminated .panicked)
  | .ok pkcs7 =>
    let body := login_request_body role pkcs7 nonceFile
    match env.postResult with
    | none => (some body, .terminated .fatalExit)
    | some resp =>
      if status_is_login_failure resp.statusCode then
        (some body, .loginError resp.statusCode resp.rawBody)
      else
        match resp.decoded with
        | none => (some body, .terminated .fatalExit)
        | some data =>
          (some body, .success (env.now + data.leaseDuration) data.clientToken data.metadataNonce)

/-- Result of the retry loop at the top of `ec2_auth_against_vault_server`.
`retries` counts the iterations that failed and slept
`time.Sleep(RetryDelay seconds)` before looping again; `exhausted` means
the supplied trace of attempt environments ran out while the loop was
still failing and sleeping, i.e. the loop was still running. -/
inductive LoopOutcome where
  | success (leaseEnd : Int) (token nonce : String) (retries : Nat)
  | terminated (t : Termination) (retries : Nat)
  | exhausted (retries : Nat)
deriving DecidableEq, Repr

/-- Record one more failed-and-slept iteration in a loop outcome. -/
def LoopOutcome.addRetry : LoopOutcome → LoopOutcome
  | .success l t n r => .success l t n (r + 1)
  | .terminated t r => .terminated t (r + 1)
  | .exhausted r => .exhausted (r + 1)

/-- Embedding of the `for` loop in `ec2_auth_against_vault_server` (the
agent variant): call `vault_ec2_auth`; on `err != nil` log, sleep the
retry delay and loop; otherwise break with the results.  The nonce file
is re-read by `get_nonce` on every iteration, but failed iterations never
write it, so the same `nonceFile` value is passed each time. -/
def auth_retry_loop (role : String) (nonceFile : Option String) :
    List AttemptEnv → LoopOutcome
  | [] => .exhausted 0
  | env :: rest =>
    match (vault_ec2_auth role nonceFile env).2 with
    | .loginError _ _ => (auth_retry_loop role nonceFile rest).addRetry
    | .terminated t => .terminated t 0
    | .success l tok non => .success l tok non 0

/-- Which of the two persisted files a `WriteFile` call targets. -/
inductive FileId where
  | tokenFile
  | nonceFile
deriving DecidableEq, Repr

/-- One `ioutil.WriteFile` call: the file, the bytes written, and the
permission mode passed. -/
structure WriteCall where
  file : FileId
  contents : String
  perm : Nat
deriving DecidableEq, Repr

/-- The permission mode `ec2_auth_against_vault_server` passes to
`ioutil.WriteFile(config.TokenPath, ..., 0660)`. -/
def token_file_write_perm : Nat := 0o660

/-- The permission mode `ec2_auth_against_vault_server` passes to
`ioutil.WriteFile(config.NoncePath, ..., 0660)`. -/
def nonce_file_write_perm : Nat := 0o660

/-- Owner permission bits (the `u` octal digit) of a mode. -/
def perm_owner_bits (m : Nat) : Nat := m / 64 % 8

/-- Group permission bits (the `g` octal digit) of a mode. -/
def perm_group_bits (m : Nat) : Nat := m / 8 % 8

/-- World permission bits (the `o` octal digit) of a mode. -/
def perm_world_bits (m : Nat) : Nat := m % 8

/-- Contents of the two persisted files (`none` = file absent). -/
structure FileState where
  tokenFile : Option String
  nonceFile : Option String
deriving DecidableEq, Repr

/-- Whether each of the two `WriteFile` calls succeeds.  A failed write is
modelled as leaving the file unchanged. -/
structure PersistEnv where
  tokenWriteOk : Bool
  nonceWriteOk : Bool
deriving DecidableEq, Repr

/-- Overall result of one `ec2_auth_against_vault_server` run: the
returned renewal trigger time, process death, or a still-running retry
loop whose environment trace was exhausted. -/
inductive RunResult where
  | success (renewalTime : Int)
  | terminated (t : Termination)
  | exhausted
deriving DecidableEq, Repr

/-- What one `ec2_auth_against_vault_server` run did: its result, the
final on-disk file state, and the `WriteFile` calls attempted in order. -/
structure RunTrace where
  result : RunResult
  files : FileState
  writes : List WriteCall
deriving DecidableEq, Repr

/-- Embedding of `ec2_auth_against_vault_server() time.Time` (the agent
variant): run the retry loop; on success
`ioutil.WriteFile(TokenPath, token, 0660)` then `check(err)`, then
`ioutil.WriteFile(NoncePath, nonce, 0660)` then `check(err)`, then return
`get_datetime_midpoint(time.Now(), lease_end_time)`.  `nowAfterLogin` is
the `time.Now()` of that last line.  A failed write leaves its file
unchanged and `check` terminates the process via `log.Fatal`, so the nonce
write is only attempted when the token write succeeded. -/
def ec2_auth_against_vault_server (role : String) (fs : FileState)
    (envs : List AttemptEnv) (pe : PersistEnv) (nowAfterLogin : Int) : RunTrace :=
  match auth_retry_loop role fs.nonceFile envs with
  | .exhausted _ => ⟨.exhausted, fs, []⟩
  | .terminated t _ => ⟨.terminated t, fs, []⟩
  | .success leaseEnd token nonce _ =>
    let tokenCall : WriteCall := ⟨.tokenFile, token, token_file_write_perm⟩
    if pe.tokenWriteOk then
      let fs1 : FileState := ⟨some token, fs.nonceFile⟩
      let nonceCall : WriteCall := ⟨.nonceFile, nonce, nonce_file_write_perm⟩
      if pe.nonceWriteOk then
        ⟨.success (get_datetime_midpoint nowAfterLogin leaseEnd),
          ⟨some token, some nonce⟩, [tokenCall, nonceCall]⟩
      else
        ⟨.terminated .fatalExit, fs1, [tokenCall, nonceCall]⟩
    else
      ⟨.terminated .fatalExit, fs, [tokenCall]⟩

/-- One `net.LookupHost` outcome in `wait_for_active_vault_server`:
success, an error of the name-resolution type `*net.DNSError`, or an
error of any other type. -/
inductive LookupResult where
  | resolved
  | dnsError
  | otherError
deriving DecidableEq, Repr

/-- Result of the availability gate on a finite trace of lookup outcomes.
`sleeps` counts the `time.Sleep(RetryDelay seconds)` calls performed;
`stillWaiting` means the trace was exhausted with the loop still
retrying — it had neither returned nor terminated. -/
inductive GateOutcome where
  | returned (sleeps : Nat)
  | fatal (sleeps : Nat)
  | stillWaiting (sleeps : Nat)
deriving DecidableEq, Repr

/-- Record one more sleep in a gate outcome. -/
def GateOutcome.addSleep : GateOutcome → GateOutcome
  | .returned n => .returned (n + 1)
  | .fatal n => .fatal (n + 1)
  | .stillWaiting n => .stillWaiting (n + 1)

/-- Embedding of `wait_for_active_vault_server(server string)` (the agent
variant): loop over `net.LookupHost(server)`; on success break; on an
error of type `*net.DNSError` log, `time.Sleep(RetryDelay seconds)` and
loop again; on any other error `log.Fatal(err.Error())`. -/
def wait_for_active_vault_server : List LookupResult → GateOutcome
  | [] => .stillWaiting 0
  | .resolved :: _ => .returned 0
  | .dnsError :: rest => (wait_for_active_vault_server rest).addSleep
  | .otherError :: _ => .fatal 0

/-- A concrete attempt environment for a successful login: the metadata
endpoint answers with proof "P", the server answers 200 with a body that
decodes to lease 3600s, token "T1", nonce "N1", and `time.Now()` reads 5. -/
def env_ok : AttemptEnv := ⟨some ⟨200, "P"⟩, some ⟨200, "ok", some ⟨3600, "T1", "N1"⟩⟩, 5⟩

/-- A concrete attempt environment for a rejected login: the server
answers 400 with body "denied". -/
def env_denied : AttemptEnv := ⟨some ⟨200, "P"⟩, some ⟨400, "denied", none⟩, 0⟩

/-- A concrete attempt environment for a successful login whose response
carries an empty `auth.metadata.nonce`. -/
def env_empty_nonce : AttemptEnv := ⟨some ⟨200, "P"⟩, some ⟨200, "ok", some ⟨3600, "T2", ""⟩⟩, 7⟩

end VaultEc2Auth

namespace VaultEc2Auth

/-- C2: for all input times, `get_datetime_midpoint` equals
`earlier + (later - earlier) / 2` and is symmetric in its two arguments. -/
theorem C2_midpoint_correct (t1 t2 : Int) :
    get_datetime_midpoint t1 t2 = min t1 t2 + (max t1 t2 - min t1 t2) / 2 ∧
    get_datetime_midpoint t1 t2 = get_datetime_midpoint t2 t1 := by
  unfold get_datetime_midpoint
  constructor
  · rcases lt_trichotomy t1 t2 with h | h | h
    · rw [if_pos h, min_eq_left h.le, max_eq_right h.le]
    · subst h
      simp
    · rw [if_neg (not_lt.mpr h.le), min_eq_right h.le, max_eq_left h.le]
  · rcases lt_trichotomy t1 t2 with h | h | h
    · rw [if_pos h, if_neg (not_lt.mpr h.le)]
    · subst h
      rfl
    · rw [if_neg (not_lt.mpr h.le), if_pos h]

/-- A nonempty string has positive length, so `get_nonce` sees a file of
positive size exactly when its contents are not the empty string. -/
theorem string_length_pos_of_ne_empty (s : String) (h : s ≠ "") : 0 < s.length := by
  rcases s with ⟨data⟩
  cases data with
  | nil => exact absurd rfl h
  | cons c cs => simp [String.length]

/-- C3: when the nonce file is absent or has zero length the POSTed body
is the initial-login shape whose JSON fields omit `nonce` entirely;
otherwise it is the re-login shape carrying a `nonce` field whose value is
exactly the stored file contents. -/
theorem C3_request_body_shape (role p : String) (f : Option String) :
    ((f = none ∨ f = some "") →
      login_request_body role p f = .loginRequest role p ∧
      ∀ kv ∈ (login_request_body role p f).jsonFields, kv.1 ≠ "nonce") ∧
    (∀ s, f = some s → s ≠ "" →
      login_request_body role p f = .reLoginRequest role p s ∧
      ("nonce", s) ∈ (login_request_body role p f).jsonFields) := by
  constructor
  · rintro (rfl | rfl) <;>
      exact ⟨rfl, by simp [login_request_body, get_nonce, RequestBody.jsonFields]⟩
  · rintro s rfl hs
    have hlen : 0 < s.length := string_length_pos_of_ne_empty s hs
    refine ⟨?_, ?_⟩ <;>
      simp [login_request_body, get_nonce, hlen, RequestBody.jsonFields]

/-- C3 witness: with a stored nonce "N1" the body is the re-login shape
carrying exactly "N1". -/
theorem C3_request_body_shape_witness :
    login_request_body "svc" "P" (some "N1") = .reLoginRequest "svc" "P" "N1" ∧
    ("nonce", "N1") ∈ (login_request_body "svc" "P" (some "N1")).jsonFields :=
  (C3_request_body_shape "svc" "P" (some "N1")).2 "N1" rfl (by decide)

/-- C4 counterexample: status 204 is inside [200, 300), so the login is
accepted as a success, not classified a failure and retried as the claim
states for 201-299. -/
theorem C4_counterexample :
    status_is_login_failure 204 = false ∧
    (vault_ec2_auth "r" none
      ⟨some ⟨200, "P"⟩, some ⟨204, "", some ⟨60, "T", "N"⟩⟩, 0⟩).2 =
      .success 60 "T" "N" := by decide

/-- C4 amended: a status is classified a login failure exactly when it is
below 200 or at least 300; every 2xx status (201-299 included) whose body
decodes is accepted as a successful login, and every status outside
[200, 300) yields the login error carrying the status and body. -/
theorem C4_status_classification (s : Int) (role raw : String) (nf : Option String)
    (d : LoginData) (mr : MetadataResponse) (now : Int) :
    (status_is_login_failure s = true ↔ (s < 200 ∨ 300 ≤ s)) ∧
    (200 ≤ s → s < 300 →
      (vault_ec2_auth role nf ⟨some mr, some ⟨s, raw, some d⟩, now⟩).2 =
        .success (now + d.leaseDuration) d.clientToken d.metadataNonce) ∧
    ((s < 200 ∨ 300 ≤ s) →
      (vault_ec2_auth role nf ⟨some mr, some ⟨s, raw, some d⟩, now⟩).2 =
        .loginError s raw) := by
  refine ⟨?_, ?_, ?_⟩
  · simp only [status_is_login_failure, Bool.or_eq_true, decide_eq_true_eq]
    exact or_comm
  · intro h1 h2
    have hfail : status_is_login_failure s = false := by
      simp only [status_is_login_failure, Bool.or_eq_false_iff, decide_eq_false_iff_not]
      omega
    simp [vault_ec2_auth, get_pkcs7, hfail]
  · intro h
    have hfail : status_is_login_failure s = true := by
      simp only [status_is_login_failure, Bool.or_eq_true, decide_eq_true_eq]
      exact h.symm
    simp [vault_ec2_auth, get_pkcs7, hfail]

/-- C4 witness: at status 204 the classification is not a failure and a
decodable response is accepted; at status 400 the attempt yields a login
error. -/
theorem C4_status_classification_witness :
    (vault_ec2_auth "r" none ⟨some ⟨200, "P"⟩, some ⟨204, "", some ⟨60, "T", "N"⟩⟩, 0⟩).2 =
      .success 60 "T" "N" ∧
    (vault_ec2_auth "r" none ⟨some ⟨200, "P"⟩, some ⟨400, "denied", some ⟨60, "T", "N"⟩⟩, 0⟩).2 =
      .loginError 400 "denied" :=
  ⟨by
    have h := (C4_status_classification 204 "r" "" none ⟨60, "T", "N"⟩ ⟨200, "P"⟩ 0).2.1
      (by decide) (by decide)
    simpa using h,
   by
    have h := (C4_status_classification 400 "r" "denied" none ⟨60, "T", "N"⟩ ⟨200, "P"⟩ 0).2.2
      (Or.inr (by decide))
    simpa using h⟩

/-- C8: at the failing input - the metadata connection cannot be
established, so `client.Get` returns a nil response and a non-nil error -
`get_pkcs7` panics on the nil dereference in its deferred
`pkcs7Request.Body.Close()` instead of returning the error to the caller;
whenever a response is received, the full body is returned verbatim,
whatever the status code and even when the body is empty. -/
theorem C8_get_pkcs7_behaviour :
    get_pkcs7 none = .panicked ∧
    (∀ resp : MetadataResponse, get_pkcs7 (some resp) = .ok resp.body) ∧
    get_pkcs7 (some ⟨500, ""⟩) = .ok "" :=
  ⟨rfl, fun _ => rfl, rfl⟩

/-- C9 counterexample: a successful run writes both files with mode 0660,
whose group digit is 6 (read/write), so the writes are not owner-only. -/
theorem C9_counterexample :
    (ec2_auth_against_vault_server "r" ⟨none, none⟩ [env_ok] ⟨true, true⟩ 0).writes =
      [⟨.tokenFile, "T1", 0o660⟩, ⟨.nonceFile, "N1", 0o660⟩] ∧
    perm_group_bits token_file_write_perm = 6 ∧
    perm_group_bits nonce_file_write_perm = 6 := by decide

/-- Bit decomposition of the mode 0660: owner 6, group 6, world 0. -/
theorem perm_0660_bits :
    perm_owner_bits 0o660 = 6 ∧ perm_group_bits 0o660 = 6 ∧ perm_world_bits 0o660 = 0 := by
  decide

/-- C9 amended: every `WriteFile` call a run performs on the token or
nonce file passes mode 0660: owner read/write and group read/write, with
no world access. -/
theorem C9_write_perms (role : String) (fs : FileState) (envs : List AttemptEnv)
    (pe : PersistEnv) (now : Int) (w : WriteCall)
    (hw : w ∈ (ec2_auth_against_vault_server role fs envs pe now).writes) :
    w.perm = 0o660 ∧ perm_owner_bits w.perm = 6 ∧ perm_group_bits w.perm = 6 ∧
      perm_world_bits w.perm = 0 := by
  unfold ec2_auth_against_vault_server at hw
  split at hw
  · simp at hw
  · simp at hw
  · split at hw
    · split at hw <;> (simp at hw; rcases hw with rfl | rfl <;>
        exact ⟨rfl, perm_0660_bits.1, perm_0660_bits.2.1, perm_0660_bits.2.2⟩)
    · simp at hw
      subst hw
      exact ⟨rfl, perm_0660_bits.1, perm_0660_bits.2.1, perm_0660_bits.2.2⟩

/-- C9 witness: the token write of a concrete successful run carries mode
0660 with owner 6, group 6, world 0. -/
theorem C9_write_perms_witness :
    (⟨.tokenFile, "T1", 0o660⟩ : WriteCall).perm = 0o660 ∧
    perm_owner_bits (⟨.tokenFile, "T1", 0o660⟩ : WriteCall).perm = 6 ∧
    perm_group_bits (⟨.tokenFile, "T1", 0o660⟩ : WriteCall).perm = 6 ∧
    perm_world_bits (⟨.tokenFile, "T1", 0o660⟩ : WriteCall).perm = 0 :=
  C9_write_perms "r" ⟨none, none⟩ [env_ok] ⟨true, true⟩ 0 ⟨.tokenFile, "T1", 0o660⟩ (by decide)

/-- C5 counterexample: an identity-proof fetch failure (metadata
connection not established) kills the process by panic, and a JSON decode
failure on a 2xx response kills it by `log.Fatal`; neither is retried -
the loop records zero retries and a termination. -/
theorem C5_counterexample :
    auth_retry_loop "r" none [⟨none, none, 0⟩] = .terminated .panicked 0 ∧
    auth_retry_loop "r" none [⟨some ⟨200, "P"⟩, some ⟨200, "garbage", none⟩, 0⟩] =
      .terminated .fatalExit 0 := by decide

/-- C5 amended: only the non-2xx login error is retried - a trace of
attempts each yielding a login error leaves the caller's loop still
retrying, having slept the configured delay once per failed attempt and
never terminated - while an attempt that dies inside `vault_ec2_auth`
(identity-proof fetch failure or JSON decode failure) terminates the
process at once with no retry. -/
theorem C5_retry_policy (role : String) (nf : Option String) (envs : List AttemptEnv) :
    ((∀ e ∈ envs, ∃ s b, (vault_ec2_auth role nf e).2 = .loginError s b) →
      auth_retry_loop role nf envs = .exhausted envs.length) ∧
    (∀ e rest t, envs = e :: rest → (vault_ec2_auth role nf e).2 = .terminated t →
      auth_retry_loop role nf envs = .terminated t 0) := by
  constructor
  · intro h
    induction envs with
    | nil => rfl
    | cons e rest ih =>
      obtain ⟨s, b, hsb⟩ := h e (List.mem_cons_self e rest)
      have hrest := ih (fun x hx => h x (List.mem_cons_of_mem e hx))
      simp only [auth_retry_loop, hsb, hrest, LoopOutcome.addRetry, List.length_cons]
  · rintro e rest t rfl ht
    simp only [auth_retry_loop, ht]

/-- C5 witness: one rejected attempt leaves the loop still retrying with
one sleep taken, and a fetch-failure attempt terminates it at once. -/
theorem C5_retry_policy_witness :
    auth_retry_loop "r" none [env_denied] = .exhausted 1 ∧
    auth_retry_loop "r" none [⟨none, none, 3⟩] = .terminated .panicked 0 :=
  ⟨(C5_retry_policy "r" none [env_denied]).1 (by
      intro e he
      rw [List.mem_singleton] at he
      subst he
      exact ⟨400, "denied", by decide⟩),
   (C5_retry_policy "r" none [⟨none, none, 3⟩]).2 ⟨none, none, 3⟩ [] .panicked rfl (by decide)⟩

/-- C6: when the login loop has succeeded and either `WriteFile` fails,
the run ends with the `log.Fatal` termination (non-zero exit) rather than
looping back to another persistence or login attempt. -/
theorem C6_persist_failure_fatal (role : String) (fs : FileState) (envs : List AttemptEnv)
    (pe : PersistEnv) (now l : Int) (tok non : String) (r : Nat)
    (hs : auth_retry_loop role fs.nonceFile envs = .success l tok non r)
    (hw : pe.tokenWriteOk = false ∨ pe.nonceWriteOk = false) :
    (ec2_auth_against_vault_server role fs envs pe now).result = .terminated .fatalExit := by
  unfold ec2_auth_against_vault_server
  rw [hs]
  rcases hw with h | h
  · simp [h]
  · cases htok : pe.tokenWriteOk <;> simp [h, htok]

/-- C6 witness: a concrete successful login followed by a failed nonce
write terminates the run fatally. -/
theorem C6_persist_failure_fatal_witness :
    (ec2_auth_against_vault_server "r" ⟨none, none⟩ [env_ok] ⟨true, false⟩ 0).result =
      .terminated .fatalExit :=
  C6_persist_failure_fatal "r" ⟨none, none⟩ [env_ok] ⟨true, false⟩ 0 3605 "T1" "N1" 0
    (by decide) (Or.inr rfl)

/-- A trace consisting solely of name-resolution errors leaves the gate
still waiting, with one retry-delay sleep per failed lookup. -/
theorem gate_all_dns_still_waiting (trace : List LookupResult)
    (h : ∀ x ∈ trace, x = LookupResult.dnsError) :
    wait_for_active_vault_server trace = .stillWaiting trace.length := by
  induction trace with
  | nil => rfl
  | cons x rest ih =>
    have hx := h x (List.mem_cons_self x rest)
    subst hx
    have hrest := ih (fun y hy => h y (List.mem_cons_of_mem _ hy))
    simp only [wait_for_active_vault_server, hrest, GateOutcome.addSleep, List.length_cons]

/-- The first lookup error that is not of the name-resolution type is
fatal on the spot: the gate dies having slept only for the
name-resolution errors before it. -/
theorem gate_other_error_fatal (pre rest : List LookupResult)
    (hpre : ∀ x ∈ pre, x = LookupResult.dnsError) :
    wait_for_active_vault_server (pre ++ LookupResult.otherError :: rest) =
      .fatal pre.length := by
  induction pre with
  | nil => rfl
  | cons x pre2 ih =>
    have hx := hpre x (List.mem_cons_self x pre2)
    subst hx
    have hrest := ih (fun y hy => hpre y (List.mem_cons_of_mem _ hy))
    simp only [List.cons_append, wait_for_active_vault_server, List.append_eq, hrest,
      GateOutcome.addSleep, List.length_cons]

/-- C7: in the availability gate, every name-resolution-type failure
(`*net.DNSError`) sleeps the configured retry delay and retries - a trace
of such failures of any length leaves the loop still waiting, never
terminated, with one sleep per failure - while the first failure of any
other kind is immediately fatal and is never retried. -/
theorem C7_availability_gate (trace : List LookupResult) :
    ((∀ x ∈ trace, x = LookupResult.dnsError) →
      wait_for_active_vault_server trace = .stillWaiting trace.length) ∧
    (∀ pre rest, trace = pre ++ LookupResult.otherError :: rest →
      (∀ x ∈ pre, x = LookupResult.dnsError) →
      wait_for_active_vault_server trace = .fatal pre.length) := by
  constructor
  · exact gate_all_dns_still_waiting trace
  · rintro pre rest rfl hpre
    exact gate_other_error_fatal pre rest hpre

/-- C7 witness: two name-resolution failures leave the gate still waiting
after two sleeps; a name-resolution failure followed by another kind of
failure is fatal after the single sleep. -/
theorem C7_availability_gate_witness :
    wait_for_active_vault_server [.dnsError, .dnsError] = .stillWaiting 2 ∧
    wait_for_active_vault_server [.dnsError, .otherError] = .fatal 1 :=
  ⟨(C7_availability_gate [.dnsError, .dnsError]).1 (by decide),
   (C7_availability_gate [.dnsError, .otherError]).2 [.dnsError] [] rfl (by decide)⟩

/-- C1 counterexample: when the token write succeeds and the nonce write
fails, the run terminates with the token file already overwritten by the
new response while the nonce file still holds its old contents - one file
is overwritten without the other. -/
theorem C1_counterexample :
    (ec2_auth_against_vault_server "r" ⟨some "oldT", some "oldN"⟩ [env_ok]
        ⟨true, false⟩ 0).files = ⟨some "T1", some "oldN"⟩ ∧
    (ec2_auth_against_vault_server "r" ⟨some "oldT", some "oldN"⟩ [env_ok]
        ⟨true, false⟩ 0).result = .terminated .fatalExit := by decide

/-- C1 amended: a run whose login loop never succeeds leaves both files
exactly as they were, and a run in which both writes succeed leaves the
two files holding the token and nonce of the same successful login
response and returns normally; the one exception, forced by the
counterexample, is a run whose token write succeeds and whose nonce write
fails, which terminates with the token file updated and the nonce file
stale. -/
theorem C1_token_nonce_consistency (role : String) (fs : FileState)
    (envs : List AttemptEnv) (pe : PersistEnv) (now : Int) :
    ((∀ l tok non r, auth_retry_loop role fs.nonceFile envs ≠ .success l tok non r) →
      (ec2_auth_against_vault_server role fs envs pe now).files = fs) ∧
    (∀ l tok non r, auth_retry_loop role fs.nonceFile envs = .success l tok non r →
      pe.tokenWriteOk = true → pe.nonceWriteOk = true →
      (ec2_auth_against_vault_server role fs envs pe now).files = ⟨some tok, some non⟩ ∧
      (ec2_auth_against_vault_server role fs envs pe now).result =
        .success (get_datetime_midpoint now l)) := by
  constructor
  · intro h
    unfold ec2_auth_against_vault_server
    split
    · rfl
    · rfl
    · rename_i l tok non r hloop
      exact absurd hloop (h l tok non r)
  · intro l tok non r hloop htok hnon
    unfold ec2_auth_against_vault_server
    rw [hloop]
    simp [htok, hnon]

/-- C1 witness: a rejected attempt leaves both files untouched, and a
successful run updates both files to the same response's token and
nonce. -/
theorem C1_token_nonce_consistency_witness :
    (ec2_auth_against_vault_server "r" ⟨some "oldT", some "oldN"⟩ [env_denied]
        ⟨true, true⟩ 0).files = ⟨some "oldT", some "oldN"⟩ ∧
    (ec2_auth_against_vault_server "r" ⟨none, none⟩ [env_ok] ⟨true, true⟩ 0).files =
      ⟨some "T1", some "N1"⟩ :=
  ⟨(C1_token_nonce_consistency "r" ⟨some "oldT", some "oldN"⟩ [env_denied] ⟨true, true⟩ 0).1
      (by
        intro l tok non r h
        rw [show auth_retry_loop "r" (some "oldN") [env_denied] = .exhausted 1 from by decide]
          at h
        exact LoopOutcome.noConfusion h),
   ((C1_token_nonce_consistency "r" ⟨none, none⟩ [env_ok] ⟨true, true⟩ 0).2 3605 "T1" "N1" 0
      (by decide) rfl rfl).1⟩

/-- C10: when a successful attempt returns an empty metadata nonce (the
decode of an absent or empty `auth.metadata.nonce`), the run overwrites
the nonce file with zero-length content, `get_nonce` then classifies the
nonce as absent, and the next request body is the initial-login shape
without a nonce field. -/
theorem C10_empty_nonce_fallback (role : String) (fs : FileState) (env : AttemptEnv)
    (l : Int) (tok : String) (now : Int)
    (h : (vault_ec2_auth role fs.nonceFile env).2 = .success l tok "") :
    (ec2_auth_against_vault_server role fs [env] ⟨true, true⟩ now).files.nonceFile =
      some "" ∧
    get_nonce (some "") = (false, "") ∧
    (∀ role2 p2, login_request_body role2 p2 (some "") = .loginRequest role2 p2) := by
  refine ⟨?_, rfl, fun role2 p2 => rfl⟩
  unfold ec2_auth_against_vault_server auth_retry_loop
  rw [h]
  rfl

/-- C10 witness: a concrete successful response with an empty metadata
nonce leaves a zero-length nonce file behind. -/
theorem C10_empty_nonce_fallback_witness :
    (ec2_auth_against_vault_server "r" ⟨none, none⟩ [env_empty_nonce]
        ⟨true, true⟩ 0).files.nonceFile = some "" :=
  (C10_empty_nonce_fallback "r" ⟨none, none⟩ env_empty_nonce 3607 "T2" 0 (by decide)).1

end VaultEc2Auth
